import Mathlib

/-!
Formal model of the Dual-Strategy Amortization Simulator
(src/services/calculator.ts of the loan-decider repository).

Numbers are modelled as exact rationals (ℚ): the JavaScript source computes
with IEEE doubles, but every arithmetic expression in the engine is a plain
field expression, so the rational model mirrors the source operation-for-
operation.  Where the source can produce a non-numeric value (the division by
zero in the installment formula when the interest rate is 0) the model keeps
the numerator and denominator as separate definitions so the degeneracy can be
stated exactly.

Each definition below is translated directly from calculator.ts and keeps the
source's names.
-/

/-- The input record (src: interface LoanInput).  `tenureYears` is a positive
integer per the data model; all monetary quantities and rates are rationals. -/
structure LoanInput where
  principal : ℚ
  interestRate : ℚ
  tenureYears : ℕ
  sipReturnRate : ℚ
  extraEmiPerYear : ℚ
  stepUpPercentage : ℚ
deriving DecidableEq, Inhabited

/-- src: `const monthlyRate = interestRate / 12 / 100`. -/
def monthlyRate (input : LoanInput) : ℚ :=
  input.interestRate / 12 / 100

/-- src: `const totalMonths = tenureYears * 12`. -/
def totalMonths (input : LoanInput) : ℕ :=
  input.tenureYears * 12

/-- src: `const sipMonthlyRate = sipReturnRate / 12 / 100`. -/
def sipMonthlyRate (input : LoanInput) : ℚ :=
  input.sipReturnRate / 12 / 100

/-- Numerator of the closed-form installment:
`principal * monthlyRate * Math.pow(1 + monthlyRate, totalMonths)`. -/
def emiNumerator (input : LoanInput) : ℚ :=
  input.principal * monthlyRate input * (1 + monthlyRate input) ^ totalMonths input

/-- Denominator of the closed-form installment:
`Math.pow(1 + monthlyRate, totalMonths) - 1`.  The source divides by this
without any zero-rate branch; at interestRate = 0 it evaluates to 0. -/
def emiDenominator (input : LoanInput) : ℚ :=
  (1 + monthlyRate input) ^ totalMonths input - 1

/-- src: `const baseEmi = (principal * monthlyRate * pow(1+r, n)) / (pow(1+r, n) - 1)`.
In the rational model a zero denominator yields the junk value 0; in the
JavaScript source the same expression yields NaN (0/0). -/
def baseEmi (input : LoanInput) : ℚ :=
  emiNumerator input / emiDenominator input

/-- src: the step-up logic.  `year = Math.ceil(month / 12)` is `(month+11)/12`
in natural-number division.
`let currentMonthlyBudget = baseEmi; if (year > 1) { currentMonthlyBudget =
baseEmi * Math.pow(1 + stepUpPercentage/100, year - 1); }`. -/
def currentMonthlyBudget (input : LoanInput) (month : ℕ) : ℚ :=
  let year := (month + 11) / 12
  if 1 < year then
    baseEmi input * (1 + input.stepUpPercentage / 100) ^ (year - 1)
  else
    baseEmi input

/-- src: `let extraPaymentBudget = 0; if (extraEmiPerYear > 0 && month % 12 === 0)
{ extraPaymentBudget = baseEmi * extraEmiPerYear; }`. -/
def extraPaymentBudget (input : LoanInput) (month : ℕ) : ℚ :=
  if 0 < input.extraEmiPerYear ∧ month % 12 = 0 then
    baseEmi input * input.extraEmiPerYear
  else
    0

/-- src: `const totalBudgetThisMonth = currentMonthlyBudget + extraPaymentBudget`.
This single value is shared by both strategies in the loop body. -/
def totalBudgetThisMonth (input : LoanInput) (month : ℕ) : ℚ :=
  currentMonthlyBudget input month + extraPaymentBudget input month

/-- The mutable loop state of calculateScenario (all the `let` variables). -/
structure SimState where
  balanceRegular : ℚ
  balanceAggressive : ℚ
  sipValueRegular : ℚ
  sipValueAggressive : ℚ
  totalInvestedRegular : ℚ
  totalInvestedAggressive : ℚ
  totalInterestRegular : ℚ
  totalInterestAggressive : ℚ
  aggressiveClosedMonth : ℕ
  regularClosedMonth : ℕ
  isAggressiveClosed : Bool
  isRegularClosed : Bool
deriving DecidableEq, Inhabited

/-- Initial loop state (src: the declarations before the `for` loop). -/
def initState (input : LoanInput) : SimState :=
  { balanceRegular := input.principal
    balanceAggressive := input.principal
    sipValueRegular := 0
    sipValueAggressive := 0
    totalInvestedRegular := 0
    totalInvestedAggressive := 0
    totalInterestRegular := 0
    totalInterestAggressive := 0
    aggressiveClosedMonth := totalMonths input
    regularClosedMonth := totalMonths input
    isAggressiveClosed := false
    isRegularClosed := false }

/-- The SIP growth step used (textually identically) for both strategies:
`if (amt > 0) { value = (value + amt) * (1 + sipMonthlyRate); invested += amt; }
else { value = value * (1 + sipMonthlyRate); }`.
Returns (new value, new invested total). -/
def sipStep (s value invested contribution : ℚ) : ℚ × ℚ :=
  if 0 < contribution then
    ((value + contribution) * (1 + s), invested + contribution)
  else
    (value * (1 + s), invested)

/-- Strategy A, loan part (src: section "A. Loan Part").  When the clamp fires
the source sets `principalComp = balanceRegular` and then does
`balanceRegular -= principalComp`, mirrored literally below. -/
def regularLoanStep (input : LoanInput) (month : ℕ) (st : SimState) : SimState :=
  if st.isRegularClosed then st
  else
    let interest := st.balanceRegular * monthlyRate input
    let principalComp := baseEmi input - interest
    if st.balanceRegular - principalComp < 0 then
      { st with
          balanceRegular := st.balanceRegular - st.balanceRegular
          totalInterestRegular := st.totalInterestRegular + interest
          isRegularClosed := true
          regularClosedMonth := month }
    else
      { st with
          balanceRegular := st.balanceRegular - principalComp
          totalInterestRegular := st.totalInterestRegular + interest }

/-- src: `let surplusRegular = totalBudgetThisMonth - (isRegularClosed ? 0 : baseEmi)`.
Evaluated on the state AFTER the loan part of the month, exactly as in the
source (the closed flag set during this month's loan part is already visible). -/
def surplusRegular (input : LoanInput) (month : ℕ) (st : SimState) : ℚ :=
  totalBudgetThisMonth input month - (if st.isRegularClosed then 0 else baseEmi input)

/-- Strategy A, full monthly step: loan part, then invest the surplus. -/
def regularStep (input : LoanInput) (month : ℕ) (st : SimState) : SimState :=
  let st1 := regularLoanStep input month st
  let p := sipStep (sipMonthlyRate input) st1.sipValueRegular st1.totalInvestedRegular
      (surplusRegular input month st1)
  { st1 with sipValueRegular := p.1, totalInvestedRegular := p.2 }

/-- Strategy B, full monthly step (src: section 3).  While active the whole
budget is proposed as the payment; on the closing month the remainder
`totalBudgetThisMonth - actualNeeded` is invested; once closed the whole
budget is invested. -/
def aggressiveStep (input : LoanInput) (month : ℕ) (st : SimState) : SimState :=
  if st.isAggressiveClosed then
    let p := sipStep (sipMonthlyRate input) st.sipValueAggressive st.totalInvestedAggressive
        (totalBudgetThisMonth input month)
    { st with sipValueAggressive := p.1, totalInvestedAggressive := p.2 }
  else
    let amountForLoanAggressive := totalBudgetThisMonth input month
    let interest := st.balanceAggressive * monthlyRate input
    let principalComp := amountForLoanAggressive - interest
    if st.balanceAggressive - principalComp < 0 then
      let actualNeeded := st.balanceAggressive + interest
      let st1 : SimState :=
        { st with
            balanceAggressive := st.balanceAggressive - st.balanceAggressive
            totalInterestAggressive := st.totalInterestAggressive + interest
            isAggressiveClosed := true
            aggressiveClosedMonth := month }
      let p := sipStep (sipMonthlyRate input) st1.sipValueAggressive st1.totalInvestedAggressive
          (amountForLoanAggressive - actualNeeded)
      { st1 with sipValueAggressive := p.1, totalInvestedAggressive := p.2 }
    else
      let st1 : SimState :=
        { st with
            balanceAggressive := st.balanceAggressive - principalComp
            totalInterestAggressive := st.totalInterestAggressive + interest }
      let p := sipStep (sipMonthlyRate input) st1.sipValueAggressive st1.totalInvestedAggressive 0
      { st1 with sipValueAggressive := p.1, totalInvestedAggressive := p.2 }

/-- One iteration of the `for (month = 1; month <= totalMonths; month++)` body
(state part).  The Regular section runs before the Aggressive section; the two
touch disjoint sets of state fields. -/
def monthStep (input : LoanInput) (month : ℕ) (st : SimState) : SimState :=
  aggressiveStep input month (regularStep input month st)

/-- Loop state after `m` completed months. -/
def runState (input : LoanInput) : ℕ → SimState
  | 0 => initState input
  | m + 1 => monthStep input (m + 1) (runState input m)

/-- src: interface MonthlyData (one snapshot pushed per month). -/
structure MonthlyData where
  month : ℕ
  year : ℕ
  loanBalanceRegular : ℚ
  loanBalanceAggressive : ℚ
  sipValueRegular : ℚ
  sipValueAggressive : ℚ
  cumulativeInterestRegular : ℚ
  cumulativeInterestAggressive : ℚ
  totalInvestedRegular : ℚ
  totalInvestedAggressive : ℚ
deriving DecidableEq, Inhabited

/-- src: the `data.push({...})` record built at the end of each iteration:
balances are displayed floored at 0 via `Math.max(0, ...)`. -/
def snapshot (month : ℕ) (st : SimState) : MonthlyData :=
  { month := month
    year := (month + 11) / 12
    loanBalanceRegular := max 0 st.balanceRegular
    loanBalanceAggressive := max 0 st.balanceAggressive
    sipValueRegular := st.sipValueRegular
    sipValueAggressive := st.sipValueAggressive
    cumulativeInterestRegular := st.totalInterestRegular
    cumulativeInterestAggressive := st.totalInterestAggressive
    totalInvestedRegular := st.totalInvestedRegular
    totalInvestedAggressive := st.totalInvestedAggressive }

/-- src: `winningStrategy: 'Prepay' | 'Invest'`. -/
inductive Strategy where
  | Prepay : Strategy
  | Invest : Strategy
deriving DecidableEq, Inhabited

/-- src: the `summary` object of SimulationResult. -/
structure Summary where
  regularTotalInterest : ℚ
  aggressiveTotalInterest : ℚ
  regularTenureMonths : ℕ
  aggressiveTenureMonths : ℕ
  interestSaved : ℚ
  finalWealthRegular : ℚ
  finalWealthAggressive : ℚ
  totalAmountInvestedRegular : ℚ
  totalAmountInvestedAggressive : ℚ
  winningStrategy : Strategy
  netWealthDifference : ℚ
deriving DecidableEq, Inhabited

/-- src: interface SimulationResult. -/
structure SimulationResult where
  monthlyData : List MonthlyData
  summary : Summary
deriving DecidableEq, Inhabited

/-- src: `export const calculateScenario = (input) => {...}`: run the loop for
all months, collect one snapshot per month, then build the summary exactly as
the source does (`winningStrategy = finalWealthAggressive > finalWealthRegular
? 'Prepay' : 'Invest'`, `netWealthDifference = Math.abs(...)`). -/
def calculateScenario (input : LoanInput) : SimulationResult :=
  let n := totalMonths input
  let finalState := runState input n
  let finalWealthRegular := finalState.sipValueRegular - max 0 finalState.balanceRegular
  let finalWealthAggressive := finalState.sipValueAggressive - max 0 finalState.balanceAggressive
  { monthlyData := (List.range n).map fun k => snapshot (k + 1) (runState input (k + 1))
    summary :=
      { regularTotalInterest := finalState.totalInterestRegular
        aggressiveTotalInterest := finalState.totalInterestAggressive
        regularTenureMonths := finalState.regularClosedMonth
        aggressiveTenureMonths := finalState.aggressiveClosedMonth
        interestSaved := finalState.totalInterestRegular - finalState.totalInterestAggressive
        finalWealthRegular := finalWealthRegular
        finalWealthAggressive := finalWealthAggressive
        totalAmountInvestedRegular := finalState.totalInvestedRegular
        totalAmountInvestedAggressive := finalState.totalInvestedAggressive
        winningStrategy :=
          if finalWealthRegular < finalWealthAggressive then Strategy.Prepay else Strategy.Invest
        netWealthDifference := |finalWealthAggressive - finalWealthRegular| } }

/-- The zero-interest-rate input named by the spec (principal 1,200,000 over 10
years at 0%): the spec requires installment 10,000/month. -/
def zeroRateInput : LoanInput :=
  { principal := 1200000, interestRate := 0, tenureYears := 10
    sipReturnRate := 12, extraEmiPerYear := 0, stepUpPercentage := 0 }

/-- An input violating the spec's validity constraint `principal > 0`. -/
def invalidInput : LoanInput :=
  { principal := -1000000, interestRate := 1200, tenureYears := 1
    sipReturnRate := 0, extraEmiPerYear := 0, stepUpPercentage := 0 }

/-- A small valid example input with a flat budget (no step-up, no extra
installments).  The annual rate 1200% makes the monthly rate exactly 1, so all
loop arithmetic stays with tiny denominators. -/
def inpFlat : LoanInput :=
  { principal := 1000, interestRate := 1200, tenureYears := 1
    sipReturnRate := 0, extraEmiPerYear := 0, stepUpPercentage := 0 }

/-- A valid example input with surplus capacity (one extra installment per
year and a 10% step-up). -/
def inpSpeed : LoanInput :=
  { principal := 1000, interestRate := 1200, tenureYears := 1
    sipReturnRate := 0, extraEmiPerYear := 1, stepUpPercentage := 10 }

/-- A loop state in which the Regular loan is one small payment away from
closure (used to exercise the closing-month branch of Strategy A). -/
def exState : SimState :=
  { initState inpFlat with balanceRegular := 1 }

/-- The spec's end-to-end scenario parameters but with interestRate = 0: a
valid input (rates are merely required to be non-negative) on which the
source's installment division is 0/0. -/
def zeroRateSpeedInput : LoanInput :=
  { principal := 5000000, interestRate := 0, tenureYears := 20
    sipReturnRate := 12, extraEmiPerYear := 1, stepUpPercentage := 5 }

/-- A one-year flat-budget input with interestRate = 0: it satisfies every
precondition of the one-year tie claim (tenure 1, no extra installment, no
step-up, positive principal, non-negative rates), yet the source's
installment division is 0/0 on it. -/
def zeroRateFlatInput : LoanInput :=
  { principal := 1000, interestRate := 0, tenureYears := 1
    sipReturnRate := 0, extraEmiPerYear := 0, stepUpPercentage := 0 }

/-- The state invariant maintained by every month step on valid inputs:
balances stay within [0, principal] and a closed track has balance exactly 0. -/
def StateInv (input : LoanInput) (st : SimState) : Prop :=
  0 ≤ st.balanceRegular ∧ st.balanceRegular ≤ input.principal ∧
  0 ≤ st.balanceAggressive ∧ st.balanceAggressive ≤ input.principal ∧
  (st.isRegularClosed = true → st.balanceRegular = 0) ∧
  (st.isAggressiveClosed = true → st.balanceAggressive = 0)

/-- The exact amortization schedule balance after `m` months of installment
payments (derived closed form used in proofs). -/
def scheduleBalance (input : LoanInput) (m : ℕ) : ℚ :=
  input.principal *
      ((1 + monthlyRate input) ^ totalMonths input - (1 + monthlyRate input) ^ m) /
    ((1 + monthlyRate input) ^ totalMonths input - 1)

/-! Characterization lemmas for the three branches of each loan step, and
frame lemmas showing each strategy's section of the loop body leaves the other
strategy's fields untouched. -/

lemma regularLoanStep_closed (input : LoanInput) (month : ℕ) (st : SimState)
    (h : st.isRegularClosed = true) :
    regularLoanStep input month st = st := by
  simp [regularLoanStep, h]

lemma regularLoanStep_fire (input : LoanInput) (month : ℕ) (st : SimState)
    (h : st.isRegularClosed = false)
    (hc : st.balanceRegular - (baseEmi input - st.balanceRegular * monthlyRate input) < 0) :
    regularLoanStep input month st =
      { st with
          balanceRegular := st.balanceRegular - st.balanceRegular
          totalInterestRegular := st.totalInterestRegular + st.balanceRegular * monthlyRate input
          isRegularClosed := true
          regularClosedMonth := month } := by
  simp [regularLoanStep, h, hc]

lemma regularLoanStep_open (input : LoanInput) (month : ℕ) (st : SimState)
    (h : st.isRegularClosed = false)
    (hc : ¬ st.balanceRegular - (baseEmi input - st.balanceRegular * monthlyRate input) < 0) :
    regularLoanStep input month st =
      { st with
          balanceRegular :=
            st.balanceRegular - (baseEmi input - st.balanceRegular * monthlyRate input)
          totalInterestRegular := st.totalInterestRegular + st.balanceRegular * monthlyRate input } := by
  simp [regularLoanStep, h, hc]

lemma regularLoanStep_untouched (input : LoanInput) (month : ℕ) (st : SimState) :
    (regularLoanStep input month st).balanceAggressive = st.balanceAggressive ∧
    (regularLoanStep input month st).sipValueAggressive = st.sipValueAggressive ∧
    (regularLoanStep input month st).totalInvestedAggressive = st.totalInvestedAggressive ∧
    (regularLoanStep input month st).totalInterestAggressive = st.totalInterestAggressive ∧
    (regularLoanStep input month st).aggressiveClosedMonth = st.aggressiveClosedMonth ∧
    (regularLoanStep input month st).isAggressiveClosed = st.isAggressiveClosed ∧
    (regularLoanStep input month st).sipValueRegular = st.sipValueRegular ∧
    (regularLoanStep input month st).totalInvestedRegular = st.totalInvestedRegular := by
  simp only [regularLoanStep]
  split_ifs <;> simp

lemma regularStep_loan_fields (input : LoanInput) (month : ℕ) (st : SimState) :
    (regularStep input month st).balanceRegular = (regularLoanStep input month st).balanceRegular ∧
    (regularStep input month st).totalInterestRegular =
      (regularLoanStep input month st).totalInterestRegular ∧
    (regularStep input month st).isRegularClosed =
      (regularLoanStep input month st).isRegularClosed ∧
    (regularStep input month st).regularClosedMonth =
      (regularLoanStep input month st).regularClosedMonth := by
  exact ⟨rfl, rfl, rfl, rfl⟩

lemma regularStep_untouched (input : LoanInput) (month : ℕ) (st : SimState) :
    (regularStep input month st).balanceAggressive = st.balanceAggressive ∧
    (regularStep input month st).sipValueAggressive = st.sipValueAggressive ∧
    (regularStep input month st).totalInvestedAggressive = st.totalInvestedAggressive ∧
    (regularStep input month st).totalInterestAggressive = st.totalInterestAggressive ∧
    (regularStep input month st).aggressiveClosedMonth = st.aggressiveClosedMonth ∧
    (regularStep input month st).isAggressiveClosed = st.isAggressiveClosed := by
  have h := regularLoanStep_untouched input month st
  exact ⟨h.1, h.2.1, h.2.2.1, h.2.2.2.1, h.2.2.2.2.1, h.2.2.2.2.2.1⟩

lemma aggressiveStep_untouched (input : LoanInput) (month : ℕ) (st : SimState) :
    (aggressiveStep input month st).balanceRegular = st.balanceRegular ∧
    (aggressiveStep input month st).sipValueRegular = st.sipValueRegular ∧
    (aggressiveStep input month st).totalInvestedRegular = st.totalInvestedRegular ∧
    (aggressiveStep input month st).totalInterestRegular = st.totalInterestRegular ∧
    (aggressiveStep input month st).regularClosedMonth = st.regularClosedMonth ∧
    (aggressiveStep input month st).isRegularClosed = st.isRegularClosed := by
  simp only [aggressiveStep]
  split_ifs <;> simp

lemma aggressiveStep_closed (input : LoanInput) (month : ℕ) (st : SimState)
    (h : st.isAggressiveClosed = true) :
    aggressiveStep input month st =
      { st with
          sipValueAggressive :=
            (sipStep (sipMonthlyRate input) st.sipValueAggressive st.totalInvestedAggressive
              (totalBudgetThisMonth input month)).1
          totalInvestedAggressive :=
            (sipStep (sipMonthlyRate input) st.sipValueAggressive st.totalInvestedAggressive
              (totalBudgetThisMonth input month)).2 } := by
  simp [aggressiveStep, h]

lemma aggressiveStep_fire (input : LoanInput) (month : ℕ) (st : SimState)
    (h : st.isAggressiveClosed = false)
    (hc : st.balanceAggressive -
        (totalBudgetThisMonth input month - st.balanceAggressive * monthlyRate input) < 0) :
    aggressiveStep input month st =
      { st with
          balanceAggressive := st.balanceAggressive - st.balanceAggressive
          totalInterestAggressive :=
            st.totalInterestAggressive + st.balanceAggressive * monthlyRate input
          isAggressiveClosed := true
          aggressiveClosedMonth := month
          sipValueAggressive :=
            (sipStep (sipMonthlyRate input) st.sipValueAggressive st.totalInvestedAggressive
              (totalBudgetThisMonth input month -
                (st.balanceAggressive + st.balanceAggressive * monthlyRate input))).1
          totalInvestedAggressive :=
            (sipStep (sipMonthlyRate input) st.sipValueAggressive st.totalInvestedAggressive
              (totalBudgetThisMonth input month -
                (st.balanceAggressive + st.balanceAggressive * monthlyRate input))).2 } := by
  simp [aggressiveStep, h, hc]

lemma aggressiveStep_open (input : LoanInput) (month : ℕ) (st : SimState)
    (h : st.isAggressiveClosed = false)
    (hc : ¬ st.balanceAggressive -
        (totalBudgetThisMonth input month - st.balanceAggressive * monthlyRate input) < 0) :
    aggressiveStep input month st =
      { st with
          balanceAggressive :=
            st.balanceAggressive -
              (totalBudgetThisMonth input month - st.balanceAggressive * monthlyRate input)
          totalInterestAggressive :=
            st.totalInterestAggressive + st.balanceAggressive * monthlyRate input
          sipValueAggressive := st.sipValueAggressive * (1 + sipMonthlyRate input) } := by
  simp [aggressiveStep, h, hc, sipStep]

/-! Arithmetic facts about the installment and the budget schedule. -/

lemma monthlyRate_pos (input : LoanInput) (hr : 0 < input.interestRate) :
    0 < monthlyRate input := by
  unfold monthlyRate; positivity

lemma totalMonths_ne_zero (input : LoanInput) (hn : 1 ≤ input.tenureYears) :
    totalMonths input ≠ 0 := by
  unfold totalMonths; omega

lemma emiDenominator_pos (input : LoanInput) (hr : 0 < input.interestRate)
    (hn : 1 ≤ input.tenureYears) : 0 < emiDenominator input := by
  unfold emiDenominator
  have h1 : (1 : ℚ) < 1 + monthlyRate input := by
    have := monthlyRate_pos input hr; linarith
  have h2 := one_lt_pow₀ h1 (totalMonths_ne_zero input hn)
  linarith

lemma baseEmi_pos (input : LoanInput) (hP : 0 < input.principal)
    (hr : 0 < input.interestRate) (hn : 1 ≤ input.tenureYears) : 0 < baseEmi input := by
  unfold baseEmi emiNumerator
  have hm := monthlyRate_pos input hr
  have hq : (0 : ℚ) < 1 + monthlyRate input := by linarith
  exact div_pos (mul_pos (mul_pos hP hm) (pow_pos hq _)) (emiDenominator_pos input hr hn)

lemma interest_lt_baseEmi (input : LoanInput) (hP : 0 < input.principal)
    (hr : 0 < input.interestRate) (hn : 1 ≤ input.tenureYears) :
    input.principal * monthlyRate input < baseEmi input := by
  unfold baseEmi emiNumerator
  rw [lt_div_iff₀ (emiDenominator_pos input hr hn)]
  unfold emiDenominator
  have hm := monthlyRate_pos input hr
  have hPr : 0 < input.principal * monthlyRate input := mul_pos hP hm
  nlinarith [hPr]

lemma baseEmi_le_budget (input : LoanInput) (month : ℕ) (hE : 0 ≤ baseEmi input)
    (hsu : 0 ≤ input.stepUpPercentage) (hex : 0 ≤ input.extraEmiPerYear) :
    baseEmi input ≤ totalBudgetThisMonth input month := by
  simp only [totalBudgetThisMonth, currentMonthlyBudget, extraPaymentBudget]
  have hf : (1 : ℚ) ≤ 1 + input.stepUpPercentage / 100 := by
    have : (0 : ℚ) ≤ input.stepUpPercentage / 100 := by positivity
    linarith
  have h3 := le_mul_of_one_le_right hE (one_le_pow₀ hf (n := (month + 11) / 12 - 1))
  have h4 : 0 ≤ baseEmi input * input.extraEmiPerYear := mul_nonneg hE hex
  split_ifs <;> linarith

lemma budget_pos (input : LoanInput) (month : ℕ) (hP : 0 < input.principal)
    (hr : 0 < input.interestRate) (hn : 1 ≤ input.tenureYears)
    (hsu : 0 ≤ input.stepUpPercentage) (hex : 0 ≤ input.extraEmiPerYear) :
    0 < totalBudgetThisMonth input month :=
  lt_of_lt_of_le (baseEmi_pos input hP hr hn)
    (baseEmi_le_budget input month (baseEmi_pos input hP hr hn).le hsu hex)

/-! Per-track invariant preservation. -/

lemma regularLoanStep_inv (input : LoanInput) (month : ℕ) (st : SimState)
    (hP : 0 < input.principal) (hr : 0 < input.interestRate) (hn : 1 ≤ input.tenureYears)
    (h0 : 0 ≤ st.balanceRegular) (h1 : st.balanceRegular ≤ input.principal)
    (h2 : st.isRegularClosed = true → st.balanceRegular = 0) :
    (0 ≤ (regularLoanStep input month st).balanceRegular ∧
      (regularLoanStep input month st).balanceRegular ≤ input.principal ∧
      ((regularLoanStep input month st).isRegularClosed = true →
        (regularLoanStep input month st).balanceRegular = 0)) ∧
    (regularLoanStep input month st).balanceRegular ≤ st.balanceRegular := by
  have hm := monthlyRate_pos input hr
  have hEr : st.balanceRegular * monthlyRate input < baseEmi input :=
    lt_of_le_of_lt (mul_le_mul_of_nonneg_right h1 hm.le) (interest_lt_baseEmi input hP hr hn)
  cases hcl : st.isRegularClosed with
  | false =>
    by_cases hc : st.balanceRegular - (baseEmi input - st.balanceRegular * monthlyRate input) < 0
    · rw [regularLoanStep_fire input month st hcl hc]
      refine ⟨⟨by simp, by simp [hP.le], fun _ => by simp⟩, by simp [h0]⟩
    · rw [regularLoanStep_open input month st hcl hc]
      push_neg at hc
      refine ⟨⟨by simpa using hc, ?_, ?_⟩, ?_⟩
      · simp only []
        linarith
      · simp [hcl]
      · simp only []
        linarith
  | true =>
    rw [regularLoanStep_closed input month st hcl]
    exact ⟨⟨h0, h1, h2⟩, le_refl _⟩

lemma aggressiveStep_inv (input : LoanInput) (month : ℕ) (st : SimState)
    (hP : 0 < input.principal) (hr : 0 < input.interestRate) (hn : 1 ≤ input.tenureYears)
    (hsu : 0 ≤ input.stepUpPercentage) (hex : 0 ≤ input.extraEmiPerYear)
    (h0 : 0 ≤ st.balanceAggressive) (h1 : st.balanceAggressive ≤ input.principal)
    (h2 : st.isAggressiveClosed = true → st.balanceAggressive = 0) :
    (0 ≤ (aggressiveStep input month st).balanceAggressive ∧
      (aggressiveStep input month st).balanceAggressive ≤ input.principal ∧
      ((aggressiveStep input month st).isAggressiveClosed = true →
        (aggressiveStep input month st).balanceAggressive = 0)) ∧
    (aggressiveStep input month st).balanceAggressive ≤ st.balanceAggressive := by
  have hm := monthlyRate_pos input hr
  have hEr : st.balanceAggressive * monthlyRate input < totalBudgetThisMonth input month :=
    lt_of_le_of_lt (mul_le_mul_of_nonneg_right h1 hm.le)
      (lt_of_lt_of_le (interest_lt_baseEmi input hP hr hn)
        (baseEmi_le_budget input month (baseEmi_pos input hP hr hn).le hsu hex))
  cases hcl : st.isAggressiveClosed with
  | false =>
    by_cases hc : st.balanceAggressive -
        (totalBudgetThisMonth input month - st.balanceAggressive * monthlyRate input) < 0
    · rw [aggressiveStep_fire input month st hcl hc]
      refine ⟨⟨by simp, by simp [hP.le], fun _ => by simp⟩, by simp [h0]⟩
    · rw [aggressiveStep_open input month st hcl hc]
      push_neg at hc
      refine ⟨⟨by simpa using hc, ?_, ?_⟩, ?_⟩
      · simp only []
        linarith
      · simp [hcl]
      · simp only []
        linarith
  | true =>
    rw [aggressiveStep_closed input month st hcl]
    exact ⟨⟨h0, h1, fun _ => h2 hcl⟩, le_refl _⟩

/-! Whole-step invariant, monotonicity and frozen-track lemmas. -/

lemma stateInv_monthStep (input : LoanInput) (month : ℕ) (st : SimState)
    (hP : 0 < input.principal) (hr : 0 < input.interestRate) (hn : 1 ≤ input.tenureYears)
    (hsu : 0 ≤ input.stepUpPercentage) (hex : 0 ≤ input.extraEmiPerYear)
    (h : StateInv input st) :
    StateInv input (monthStep input month st) ∧
    (monthStep input month st).balanceRegular ≤ st.balanceRegular ∧
    (monthStep input month st).balanceAggressive ≤ st.balanceAggressive := by
  obtain ⟨hbr0, hbr1, hba0, hba1, hbrc, hbac⟩ := h
  have hreg := regularLoanStep_inv input month st hP hr hn hbr0 hbr1 hbrc
  have hru := regularStep_untouched input month st
  have hau := aggressiveStep_untouched input month (regularStep input month st)
  have hrl := regularStep_loan_fields input month st
  have h0a : 0 ≤ (regularStep input month st).balanceAggressive := by rw [hru.1]; exact hba0
  have h1a : (regularStep input month st).balanceAggressive ≤ input.principal := by
    rw [hru.1]; exact hba1
  have h2a : (regularStep input month st).isAggressiveClosed = true →
      (regularStep input month st).balanceAggressive = 0 := by
    rw [hru.1, hru.2.2.2.2.2]; exact hbac
  have hagg := aggressiveStep_inv input month (regularStep input month st)
    hP hr hn hsu hex h0a h1a h2a
  have hbrEq : (monthStep input month st).balanceRegular =
      (regularLoanStep input month st).balanceRegular := by
    rw [monthStep, hau.1, hrl.1]
  have hbrcEq : (monthStep input month st).isRegularClosed =
      (regularLoanStep input month st).isRegularClosed := by
    rw [monthStep, hau.2.2.2.2.2, hrl.2.2.1]
  refine ⟨⟨?_, ?_, ?_, ?_, ?_, ?_⟩, ?_, ?_⟩
  · rw [hbrEq]; exact hreg.1.1
  · rw [hbrEq]; exact hreg.1.2.1
  · exact hagg.1.1
  · exact hagg.1.2.1
  · rw [hbrEq, hbrcEq]; exact hreg.1.2.2
  · exact hagg.1.2.2
  · rw [hbrEq]; exact le_trans hreg.2 (le_refl _)
  · exact le_trans hagg.2 (le_of_eq hru.1)

lemma stateInv_runState (input : LoanInput)
    (hP : 0 < input.principal) (hr : 0 < input.interestRate) (hn : 1 ≤ input.tenureYears)
    (hsu : 0 ≤ input.stepUpPercentage) (hex : 0 ≤ input.extraEmiPerYear) :
    ∀ m, StateInv input (runState input m) := by
  intro m
  induction m with
  | zero =>
    refine ⟨hP.le, le_refl _, hP.le, le_refl _, ?_, ?_⟩ <;> intro h <;> simp [runState, initState] at h
  | succ m ih =>
    exact (stateInv_monthStep input (m + 1) (runState input m) hP hr hn hsu hex ih).1

lemma monthStep_regular_frozen (input : LoanInput) (month : ℕ) (st : SimState)
    (h : st.isRegularClosed = true) :
    (monthStep input month st).isRegularClosed = true ∧
    (monthStep input month st).balanceRegular = st.balanceRegular ∧
    (monthStep input month st).totalInterestRegular = st.totalInterestRegular ∧
    (monthStep input month st).regularClosedMonth = st.regularClosedMonth := by
  have hau := aggressiveStep_untouched input month (regularStep input month st)
  have hrl := regularStep_loan_fields input month st
  have hcl := regularLoanStep_closed input month st h
  refine ⟨?_, ?_, ?_, ?_⟩
  · rw [monthStep, hau.2.2.2.2.2, hrl.2.2.1, hcl, h]
  · rw [monthStep, hau.1, hrl.1, hcl]
  · rw [monthStep, hau.2.2.2.1, hrl.2.1, hcl]
  · rw [monthStep, hau.2.2.2.2.1, hrl.2.2.2, hcl]

lemma monthStep_aggressive_frozen (input : LoanInput) (month : ℕ) (st : SimState)
    (h : st.isAggressiveClosed = true) :
    (monthStep input month st).isAggressiveClosed = true ∧
    (monthStep input month st).balanceAggressive = st.balanceAggressive ∧
    (monthStep input month st).totalInterestAggressive = st.totalInterestAggressive ∧
    (monthStep input month st).aggressiveClosedMonth = st.aggressiveClosedMonth := by
  have hru := regularStep_untouched input month st
  have h2 : (regularStep input month st).isAggressiveClosed = true := by
    rw [hru.2.2.2.2.2]; exact h
  have hcl := aggressiveStep_closed input month (regularStep input month st) h2
  rw [monthStep, hcl]
  refine ⟨h2, ?_, ?_, ?_⟩
  · simp only []
    exact hru.1
  · simp only []
    exact hru.2.2.2.1
  · simp only []
    exact hru.2.2.2.2.1

lemma compare_step (input : LoanInput) (month : ℕ) (st : SimState)
    (hP : 0 < input.principal) (hr : 0 < input.interestRate) (hn : 1 ≤ input.tenureYears)
    (hsu : 0 ≤ input.stepUpPercentage) (hex : 0 ≤ input.extraEmiPerYear)
    (hinv : StateInv input st)
    (hbal : st.balanceAggressive ≤ st.balanceRegular)
    (hint : st.totalInterestAggressive ≤ st.totalInterestRegular) :
    (monthStep input month st).balanceAggressive ≤ (monthStep input month st).balanceRegular ∧
    (monthStep input month st).totalInterestAggressive ≤
      (monthStep input month st).totalInterestRegular := by
  obtain ⟨hbr0, hbr1, hba0, hba1, hbrc, hbac⟩ := hinv
  have hm := monthlyRate_pos input hr
  have hE := baseEmi_pos input hP hr hn
  have hbud := baseEmi_le_budget input month hE.le hsu hex
  have hbudpos := budget_pos input month hP hr hn hsu hex
  have hru := regularStep_untouched input month st
  have hau := aggressiveStep_untouched input month (regularStep input month st)
  have hrl := regularStep_loan_fields input month st
  have hbrEq : (monthStep input month st).balanceRegular =
      (regularLoanStep input month st).balanceRegular := by
    rw [monthStep, hau.1, hrl.1]
  have hirEq : (monthStep input month st).totalInterestRegular =
      (regularLoanStep input month st).totalInterestRegular := by
    rw [monthStep, hau.2.2.2.1, hrl.2.1]
  rw [hbrEq, hirEq, monthStep]
  set q := regularStep input month st with hqdef
  have tA0 : q.balanceAggressive = st.balanceAggressive := hru.1
  have tA1 : q.isAggressiveClosed = st.isAggressiveClosed := hru.2.2.2.2.2
  have tA2 : q.totalInterestAggressive = st.totalInterestAggressive := hru.2.2.2.1
  have hArm : st.balanceAggressive * monthlyRate input ≤
      st.balanceRegular * monthlyRate input := mul_le_mul_of_nonneg_right hbal hm.le
  have hRr0 : 0 ≤ st.balanceRegular * monthlyRate input := mul_nonneg hbr0 hm.le
  cases hRc : st.isRegularClosed with
  | false =>
    by_cases hRf : st.balanceRegular - (baseEmi input - st.balanceRegular * monthlyRate input) < 0
    · rw [regularLoanStep_fire input month st hRc hRf]
      cases hAc : st.isAggressiveClosed with
      | false =>
        have hcond : q.balanceAggressive -
            (totalBudgetThisMonth input month - q.balanceAggressive * monthlyRate input) < 0 := by
          rw [tA0]; linarith
        rw [aggressiveStep_fire input month q (by rw [tA1, hAc]) hcond]
        constructor
        · dsimp only
          simp
        · dsimp only
          rw [tA2, tA0]; linarith
      | true =>
        have hA0 : st.balanceAggressive = 0 := hbac hAc
        rw [aggressiveStep_closed input month q (by rw [tA1, hAc])]
        constructor
        · dsimp only
          rw [tA0, hA0]; simp
        · dsimp only
          rw [tA2]; linarith
    · rw [regularLoanStep_open input month st hRc hRf]
      push_neg at hRf
      cases hAc : st.isAggressiveClosed with
      | false =>
        by_cases hAf : q.balanceAggressive -
            (totalBudgetThisMonth input month - q.balanceAggressive * monthlyRate input) < 0
        · rw [aggressiveStep_fire input month q (by rw [tA1, hAc]) hAf]
          constructor
          · dsimp only
            rw [sub_self]; linarith
          · dsimp only
            rw [tA2, tA0]; linarith
        · rw [aggressiveStep_open input month q (by rw [tA1, hAc]) hAf]
          constructor
          · dsimp only
            rw [tA0]; linarith
          · dsimp only
            rw [tA2, tA0]; linarith
      | true =>
        have hA0 : st.balanceAggressive = 0 := hbac hAc
        rw [aggressiveStep_closed input month q (by rw [tA1, hAc])]
        constructor
        · dsimp only
          rw [tA0, hA0]; linarith
        · dsimp only
          rw [tA2]; linarith
  | true =>
    have hR0 : st.balanceRegular = 0 := hbrc hRc
    have hA0 : st.balanceAggressive = 0 := le_antisymm (hR0 ▸ hbal) hba0
    rw [regularLoanStep_closed input month st hRc]
    cases hAc : st.isAggressiveClosed with
    | false =>
      have hcond : q.balanceAggressive -
          (totalBudgetThisMonth input month - q.balanceAggressive * monthlyRate input) < 0 := by
        rw [tA0, hA0]; simpa using hbudpos
      rw [aggressiveStep_fire input month q (by rw [tA1, hAc]) hcond]
      constructor
      · dsimp only
        rw [hR0]; simp
      · dsimp only
        rw [tA2, tA0, hA0]; simpa using hint
    | true =>
      rw [aggressiveStep_closed input month q (by rw [tA1, hAc])]
      constructor
      · dsimp only
        rw [tA0, hA0, hR0]
      · dsimp only
        rw [tA2]; exact hint

lemma compare_runState (input : LoanInput)
    (hP : 0 < input.principal) (hr : 0 < input.interestRate) (hn : 1 ≤ input.tenureYears)
    (hsu : 0 ≤ input.stepUpPercentage) (hex : 0 ≤ input.extraEmiPerYear) :
    ∀ m, (runState input m).balanceAggressive ≤ (runState input m).balanceRegular ∧
      (runState input m).totalInterestAggressive ≤ (runState input m).totalInterestRegular := by
  intro m
  induction m with
  | zero => exact ⟨le_refl _, le_refl _⟩
  | succ m ih =>
    exact compare_step input (m + 1) (runState input m) hP hr hn hsu hex
      (stateInv_runState input hP hr hn hsu hex m) ih.1 ih.2

/-! Exact amortization: with a flat budget the clamp never fires and the
balance follows the closed-form schedule, reaching exactly 0 at the last
month. -/

lemma flat_budget (input : LoanInput) (hsu : input.stepUpPercentage = 0)
    (hex : input.extraEmiPerYear = 0) (month : ℕ) :
    totalBudgetThisMonth input month = baseEmi input := by
  simp only [totalBudgetThisMonth, currentMonthlyBudget, extraPaymentBudget, hsu, hex]
  split_ifs <;> simp

lemma scheduleBalance_zero (input : LoanInput) (hr : 0 < input.interestRate)
    (hn : 1 ≤ input.tenureYears) : scheduleBalance input 0 = input.principal := by
  have hden := emiDenominator_pos input hr hn
  unfold emiDenominator at hden
  unfold scheduleBalance
  rw [pow_zero, mul_div_assoc, div_self (ne_of_gt hden), mul_one]

lemma scheduleBalance_succ (input : LoanInput) (hr : 0 < input.interestRate)
    (hn : 1 ≤ input.tenureYears) (m : ℕ) :
    scheduleBalance input m * (1 + monthlyRate input) - baseEmi input =
      scheduleBalance input (m + 1) := by
  have hden := emiDenominator_pos input hr hn
  unfold emiDenominator at hden
  unfold scheduleBalance baseEmi emiNumerator emiDenominator
  field_simp
  ring

lemma scheduleBalance_nonneg (input : LoanInput) (hP : 0 < input.principal)
    (hr : 0 < input.interestRate) (hn : 1 ≤ input.tenureYears) (m : ℕ)
    (hm : m ≤ totalMonths input) : 0 ≤ scheduleBalance input m := by
  have hden := emiDenominator_pos input hr hn
  unfold emiDenominator at hden
  have hq : (1 : ℚ) ≤ 1 + monthlyRate input := by
    have := monthlyRate_pos input hr; linarith
  have hpow : (1 + monthlyRate input) ^ m ≤ (1 + monthlyRate input) ^ totalMonths input :=
    pow_le_pow_right₀ hq hm
  unfold scheduleBalance
  exact div_nonneg (mul_nonneg hP.le (by linarith)) hden.le

lemma scheduleBalance_total (input : LoanInput) :
    scheduleBalance input (totalMonths input) = 0 := by
  unfold scheduleBalance
  rw [sub_self, mul_zero, zero_div]

lemma monthStep_flat (input : LoanInput) (month : ℕ) (b t : ℚ) (n : ℕ)
    (hflat : ∀ mo, totalBudgetThisMonth input mo = baseEmi input)
    (hnofire : ¬ b - (baseEmi input - b * monthlyRate input) < 0) :
    monthStep input month
      { balanceRegular := b, balanceAggressive := b
        sipValueRegular := 0, sipValueAggressive := 0
        totalInvestedRegular := 0, totalInvestedAggressive := 0
        totalInterestRegular := t, totalInterestAggressive := t
        aggressiveClosedMonth := n, regularClosedMonth := n
        isAggressiveClosed := false, isRegularClosed := false } =
      { balanceRegular := b - (baseEmi input - b * monthlyRate input)
        balanceAggressive := b - (baseEmi input - b * monthlyRate input)
        sipValueRegular := 0, sipValueAggressive := 0
        totalInvestedRegular := 0, totalInvestedAggressive := 0
        totalInterestRegular := t + b * monthlyRate input
        totalInterestAggressive := t + b * monthlyRate input
        aggressiveClosedMonth := n, regularClosedMonth := n
        isAggressiveClosed := false, isRegularClosed := false } := by
  simp [monthStep, regularStep, aggressiveStep, regularLoanStep, surplusRegular, sipStep,
    hflat, hnofire]

lemma flat_trajectory (input : LoanInput)
    (hP : 0 < input.principal) (hr : 0 < input.interestRate) (hn : 1 ≤ input.tenureYears)
    (hsu : input.stepUpPercentage = 0) (hex : input.extraEmiPerYear = 0) :
    ∀ m, m ≤ totalMonths input → ∃ t : ℚ,
      runState input m =
        { balanceRegular := scheduleBalance input m
          balanceAggressive := scheduleBalance input m
          sipValueRegular := 0, sipValueAggressive := 0
          totalInvestedRegular := 0, totalInvestedAggressive := 0
          totalInterestRegular := t, totalInterestAggressive := t
          aggressiveClosedMonth := totalMonths input
          regularClosedMonth := totalMonths input
          isAggressiveClosed := false, isRegularClosed := false } := by
  intro m
  induction m with
  | zero =>
    intro _
    refine ⟨0, ?_⟩
    rw [scheduleBalance_zero input hr hn]
    rfl
  | succ m ih =>
    intro hm
    obtain ⟨t, ht⟩ := ih (by omega)
    have hb1 : scheduleBalance input m * (1 + monthlyRate input) - baseEmi input =
        scheduleBalance input (m + 1) := scheduleBalance_succ input hr hn m
    have hge : 0 ≤ scheduleBalance input (m + 1) :=
      scheduleBalance_nonneg input hP hr hn (m + 1) hm
    have hEq : scheduleBalance input m -
        (baseEmi input - scheduleBalance input m * monthlyRate input) =
        scheduleBalance input (m + 1) := by rw [← hb1]; ring
    have hnofire : ¬ scheduleBalance input m -
        (baseEmi input - scheduleBalance input m * monthlyRate input) < 0 := by
      push_neg
      rw [hEq]
      exact hge
    refine ⟨t + scheduleBalance input m * monthlyRate input, ?_⟩
    have hrs : runState input (m + 1) = monthStep input (m + 1) (runState input m) := rfl
    rw [hrs, ht, monthStep_flat input (m + 1) (scheduleBalance input m) t (totalMonths input)
      (flat_budget input hsu hex) hnofire, hEq]

lemma monthStep_regular_not_closed (input : LoanInput) (month : ℕ) (st : SimState)
    (h : (monthStep input month st).isRegularClosed = false) :
    st.isRegularClosed = false ∧
    (monthStep input month st).regularClosedMonth = st.regularClosedMonth := by
  have hau := aggressiveStep_untouched input month (regularStep input month st)
  have hrl := regularStep_loan_fields input month st
  have hflag : (monthStep input month st).isRegularClosed =
      (regularLoanStep input month st).isRegularClosed := by
    rw [monthStep, hau.2.2.2.2.2, hrl.2.2.1]
  have hmon : (monthStep input month st).regularClosedMonth =
      (regularLoanStep input month st).regularClosedMonth := by
    rw [monthStep, hau.2.2.2.2.1, hrl.2.2.2]
  cases hcl : st.isRegularClosed with
  | false =>
    by_cases hc : st.balanceRegular - (baseEmi input - st.balanceRegular * monthlyRate input) < 0
    · rw [hflag, regularLoanStep_fire input month st hcl hc] at h
      simp at h
    · rw [hmon, regularLoanStep_open input month st hcl hc]
      exact ⟨rfl, rfl⟩
  | true =>
    rw [hflag, regularLoanStep_closed input month st hcl, hcl] at h
    simp at h

lemma monthStep_aggressive_not_closed (input : LoanInput) (month : ℕ) (st : SimState)
    (h : (monthStep input month st).isAggressiveClosed = false) :
    st.isAggressiveClosed = false ∧
    (monthStep input month st).aggressiveClosedMonth = st.aggressiveClosedMonth := by
  have hru := regularStep_untouched input month st
  cases hcl : st.isAggressiveClosed with
  | false =>
    by_cases hc : (regularStep input month st).balanceAggressive -
        (totalBudgetThisMonth input month -
          (regularStep input month st).balanceAggressive * monthlyRate input) < 0
    · rw [monthStep,
        aggressiveStep_fire input month (regularStep input month st)
          (by rw [hru.2.2.2.2.2, hcl]) hc] at h
      simp at h
    · rw [monthStep,
        aggressiveStep_open input month (regularStep input month st)
          (by rw [hru.2.2.2.2.2, hcl]) hc]
      exact ⟨rfl, by dsimp only; rw [hru.2.2.2.2.1]⟩
  | true =>
    have h2 : (regularStep input month st).isAggressiveClosed = true := by
      rw [hru.2.2.2.2.2]; exact hcl
    rw [monthStep, aggressiveStep_closed input month (regularStep input month st) h2] at h
    dsimp only at h
    rw [h2] at h
    simp at h

lemma runState_regular_closedMonth (input : LoanInput) :
    ∀ m, (runState input m).isRegularClosed = false →
      (runState input m).regularClosedMonth = totalMonths input := by
  intro m
  induction m with
  | zero => intro _; rfl
  | succ m ih =>
    intro h
    have hrs : runState input (m + 1) = monthStep input (m + 1) (runState input m) := rfl
    rw [hrs] at h
    have hstep := monthStep_regular_not_closed input (m + 1) (runState input m) h
    rw [hrs, hstep.2]
    exact ih hstep.1

lemma runState_aggressive_closedMonth (input : LoanInput) :
    ∀ m, (runState input m).isAggressiveClosed = false →
      (runState input m).aggressiveClosedMonth = totalMonths input := by
  intro m
  induction m with
  | zero => intro _; rfl
  | succ m ih =>
    intro h
    have hrs : runState input (m + 1) = monthStep input (m + 1) (runState input m) := rfl
    rw [hrs] at h
    have hstep := monthStep_aggressive_not_closed input (m + 1) (runState input m) h
    rw [hrs, hstep.2]
    exact ih hstep.1

/-- C1: the spec requires the Installment Solver to return
`principal / (tenureYears * 12)` when the interest rate is 0 (here 10000 for
principal 1,200,000 over 10 years).  The source has no zero-rate branch: at
interestRate = 0 the installment formula's denominator `(1+r)^n - 1` is 0 and
its numerator is 0, so the JavaScript division produces NaN, which then
contaminates the whole simulation.  The code therefore violates the claim. -/
theorem c1_zero_rate_emi_denominator_vanishes :
    emiDenominator zeroRateInput = 0 ∧ emiNumerator zeroRateInput = 0 ∧
    zeroRateInput.principal / ((zeroRateInput.tenureYears : ℚ) * 12) = 10000 := by
  norm_num [emiDenominator, emiNumerator, monthlyRate, totalMonths, zeroRateInput]

/-- C2 counterexample: `calculateScenario` never rejects.  For an input with
principal ≤ 0 — which the claim says must fail before any result is
produced — the function still returns a fully populated result with one
snapshot per month. -/
theorem c2_invalid_input_still_succeeds :
    invalidInput.principal ≤ 0 ∧
    (calculateScenario invalidInput).monthlyData.length = 12 := by
  constructor
  · norm_num [invalidInput]
  · simp [calculateScenario, totalMonths, invalidInput]

/-- C2 amended: `calculateScenario` performs no input validation at all: for
every input (valid or not) it succeeds and returns a result populated with
exactly tenureYears*12 monthly snapshots. -/
theorem c2_always_returns_full_result (input : LoanInput) :
    (calculateScenario input).monthlyData.length = totalMonths input := by
  simp [calculateScenario]

/-- C3 counterexample: in the exact month the Regular loan closes, the
contribution added to Strategy A's accumulation track equals the ENTIRE
month's budget, not budget minus the fixed installment as claimed: the source
sets `isRegularClosed` before computing `surplusRegular`, so the ternary
yields 0 in the closing month itself. -/
theorem c3_closing_month_surplus_counterexample :
    exState.isRegularClosed = false ∧
    (regularLoanStep inpFlat 1 exState).isRegularClosed = true ∧
    (regularStep inpFlat 1 exState).totalInvestedRegular - exState.totalInvestedRegular =
      totalBudgetThisMonth inpFlat 1 ∧
    ¬ (regularStep inpFlat 1 exState).totalInvestedRegular - exState.totalInvestedRegular =
      totalBudgetThisMonth inpFlat 1 - baseEmi inpFlat := by
  norm_num [regularStep, regularLoanStep, surplusRegular, sipStep, totalBudgetThisMonth,
    currentMonthlyBudget, extraPaymentBudget, baseEmi, emiNumerator, emiDenominator,
    monthlyRate, sipMonthlyRate, totalMonths, exState, initState, inpFlat]

/-- C3 amended: in the exact month the Regular loan closes, the surplus fed to
the Accumulation Track is the whole month's budget (no installment is
deducted, because the closed flag set during this month's loan part is already
visible to the surplus computation); hence already from the closure month
onward — not only from the month after — the entire budget becomes the
investment contribution. -/
theorem c3_closing_month_invests_entire_budget (input : LoanInput) (month : ℕ) (st : SimState)
    (hopen : st.isRegularClosed = false)
    (hclosed : (regularLoanStep input month st).isRegularClosed = true)
    (hbud : 0 < totalBudgetThisMonth input month) :
    surplusRegular input month (regularLoanStep input month st) =
      totalBudgetThisMonth input month ∧
    (regularStep input month st).totalInvestedRegular =
      st.totalInvestedRegular + totalBudgetThisMonth input month := by
  have hsurp : surplusRegular input month (regularLoanStep input month st) =
      totalBudgetThisMonth input month := by
    unfold surplusRegular
    rw [hclosed]
    simp
  refine ⟨hsurp, ?_⟩
  have h1 : (regularStep input month st).totalInvestedRegular =
      (sipStep (sipMonthlyRate input) (regularLoanStep input month st).sipValueRegular
        (regularLoanStep input month st).totalInvestedRegular
        (surplusRegular input month (regularLoanStep input month st))).2 := rfl
  rw [h1, hsurp]
  unfold sipStep
  rw [if_pos hbud]
  have h2 := (regularLoanStep_untouched input month st).2.2.2.2.2.2.2
  dsimp only
  rw [h2]

/-- Witness for the amended C3 at a concrete nearly-paid-off state. -/
theorem c3_closing_month_invests_entire_budget_checked :
    surplusRegular inpFlat 1 (regularLoanStep inpFlat 1 exState) =
      totalBudgetThisMonth inpFlat 1 ∧
    (regularStep inpFlat 1 exState).totalInvestedRegular =
      exState.totalInvestedRegular + totalBudgetThisMonth inpFlat 1 :=
  c3_closing_month_invests_entire_budget inpFlat 1 exState rfl
    (by norm_num [regularLoanStep, baseEmi, emiNumerator, emiDenominator, monthlyRate,
      totalMonths, exState, initState, inpFlat])
    (by norm_num [totalBudgetThisMonth, currentMonthlyBudget, extraPaymentBudget, baseEmi,
      emiNumerator, emiDenominator, monthlyRate, totalMonths, inpFlat])

/-- C4: the winner is Prepay exactly when the aggressive final wealth is
strictly greater than the regular final wealth; on exact equality the winner
is Invest; and the reported net wealth difference is the absolute difference
of the two final wealth values.  This holds for every input. -/
theorem c4_winning_strategy_rule (input : LoanInput) :
    ((calculateScenario input).summary.winningStrategy = Strategy.Prepay ↔
      (calculateScenario input).summary.finalWealthAggressive >
        (calculateScenario input).summary.finalWealthRegular) ∧
    ((calculateScenario input).summary.finalWealthAggressive =
        (calculateScenario input).summary.finalWealthRegular →
      (calculateScenario input).summary.winningStrategy = Strategy.Invest) ∧
    (calculateScenario input).summary.netWealthDifference =
      |(calculateScenario input).summary.finalWealthAggressive -
        (calculateScenario input).summary.finalWealthRegular| := by
  have hw : (calculateScenario input).summary.winningStrategy =
      (if (calculateScenario input).summary.finalWealthRegular <
          (calculateScenario input).summary.finalWealthAggressive
       then Strategy.Prepay else Strategy.Invest) := rfl
  have hd : (calculateScenario input).summary.netWealthDifference =
      |(calculateScenario input).summary.finalWealthAggressive -
        (calculateScenario input).summary.finalWealthRegular| := rfl
  refine ⟨?_, ?_, hd⟩
  · rw [hw]
    by_cases h : (calculateScenario input).summary.finalWealthRegular <
        (calculateScenario input).summary.finalWealthAggressive
    · rw [if_pos h]
      exact ⟨fun _ => h, fun _ => rfl⟩
    · rw [if_neg h]
      constructor
      · intro hcontra
        exact absurd hcontra (by simp)
      · intro hgt
        exact absurd hgt h
  · intro heq
    rw [hw, if_neg (by rw [heq]; exact lt_irrefl _)]

/-- Witness for C4 at a concrete input. -/
theorem c4_winning_strategy_rule_checked :
    ((calculateScenario inpFlat).summary.winningStrategy = Strategy.Prepay ↔
      (calculateScenario inpFlat).summary.finalWealthAggressive >
        (calculateScenario inpFlat).summary.finalWealthRegular) ∧
    ((calculateScenario inpFlat).summary.finalWealthAggressive =
        (calculateScenario inpFlat).summary.finalWealthRegular →
      (calculateScenario inpFlat).summary.winningStrategy = Strategy.Invest) ∧
    (calculateScenario inpFlat).summary.netWealthDifference =
      |(calculateScenario inpFlat).summary.finalWealthAggressive -
        (calculateScenario inpFlat).summary.finalWealthRegular| :=
  c4_winning_strategy_rule inpFlat

/-- C5: for every month m ≥ 1 the total budget equals the stepped-up base
capacity `E * (1 + stepUp/100)^(ceil(m/12) - 1)` plus, exactly when
`extraEmiPerYear > 0` and `m` is a multiple of 12, the extra payment
`E * extraEmiPerYear`.  Both strategies read this same value (the model's
`monthStep` passes the single definition `totalBudgetThisMonth` to both the
Regular and the Aggressive sections). -/
theorem c5_budget_schedule (input : LoanInput) (m : ℕ) (hm : 1 ≤ m) :
    totalBudgetThisMonth input m =
      baseEmi input * (1 + input.stepUpPercentage / 100) ^ (Nat.ceil ((m : ℚ) / 12) - 1) +
        (if 0 < input.extraEmiPerYear ∧ m % 12 = 0
         then baseEmi input * input.extraEmiPerYear else 0) := by
  have hk : (m + 11) / 12 ≠ 0 := by omega
  have hceil : Nat.ceil ((m : ℚ) / 12) = (m + 11) / 12 := by
    rw [Nat.ceil_eq_iff hk]
    constructor
    · rw [lt_div_iff₀ (by norm_num : (0 : ℚ) < 12)]
      have h1 : ((m + 11) / 12 - 1) * 12 < m := by omega
      exact_mod_cast h1
    · rw [div_le_iff₀ (by norm_num : (0 : ℚ) < 12)]
      have h2 : m ≤ ((m + 11) / 12) * 12 := by omega
      exact_mod_cast h2
  rw [hceil]
  simp only [totalBudgetThisMonth, currentMonthlyBudget, extraPaymentBudget]
  by_cases h1 : 1 < (m + 11) / 12
  · rw [if_pos h1]
  · rw [if_neg h1]
    have h2 : (m + 11) / 12 = 1 := by omega
    rw [h2]
    simp

/-- Witness for C5 at month 12 of a concrete input with extra installment. -/
theorem c5_budget_schedule_checked :
    totalBudgetThisMonth inpSpeed 12 =
      baseEmi inpSpeed * (1 + inpSpeed.stepUpPercentage / 100) ^
          (Nat.ceil (((12 : ℕ) : ℚ) / 12) - 1) +
        (if 0 < inpSpeed.extraEmiPerYear ∧ 12 % 12 = 0
         then baseEmi inpSpeed * inpSpeed.extraEmiPerYear else 0) :=
  c5_budget_schedule inpSpeed 12 (by norm_num)

/-- C6: one accumulation-track step with contribution c ≥ 0 and the monthly
investment rate s = sipReturnRate/12/100 yields value (value + c)(1 + s) and
adds c to the running contribution total; for c = 0 it degenerates to
value (1 + s) with the total unchanged.  The single definition `sipStep` is
the one applied to both strategies' tracks in the loop body. -/
theorem c6_accumulation_step (input : LoanInput) (value invested c : ℚ) (hc : 0 ≤ c) :
    sipStep (sipMonthlyRate input) value invested c =
      ((value + c) * (1 + sipMonthlyRate input), invested + c) ∧
    (c = 0 → sipStep (sipMonthlyRate input) value invested c =
      (value * (1 + sipMonthlyRate input), invested)) := by
  rcases eq_or_lt_of_le hc with h | h
  · constructor
    · unfold sipStep
      rw [if_neg (by rw [← h]; exact lt_irrefl 0), ← h, add_zero, add_zero]
    · intro _
      unfold sipStep
      rw [if_neg (by rw [← h]; exact lt_irrefl 0)]
  · constructor
    · unfold sipStep
      rw [if_pos h]
    · intro h0
      rw [h0] at h
      exact absurd h (lt_irrefl 0)

/-- Witness for C6 at concrete values. -/
theorem c6_accumulation_step_checked :
    sipStep (sipMonthlyRate inpFlat) 5 7 3 =
      ((5 + 3) * (1 + sipMonthlyRate inpFlat), 7 + 3) ∧
    ((3 : ℚ) = 0 → sipStep (sipMonthlyRate inpFlat) 5 7 3 =
      (5 * (1 + sipMonthlyRate inpFlat), 7)) :=
  c6_accumulation_step inpFlat 5 7 3 (by norm_num)

/-- C7 counterexample: the claim covers every valid input, and interestRate =
0 is valid (rates need only be non-negative), but on this concrete rate-0
input the installment formula's denominator and numerator are both exactly 0,
so in the source `baseEmi = 0/0 = NaN` and every loan balance of both tracks
is NaN from month 1 on: the balances are then neither monotonically
non-increasing nor ever exactly 0, so the claimed invariants fail.  The
rational model cannot represent NaN, so (as in C1) the counterexample pins
the division-by-zero degeneracy at an input the claim quantifies over. -/
theorem c7_zero_rate_counterexample :
    0 < zeroRateInput.principal ∧ 1 ≤ zeroRateInput.tenureYears ∧
    0 ≤ zeroRateInput.interestRate ∧ 0 ≤ zeroRateInput.sipReturnRate ∧
    0 ≤ zeroRateInput.stepUpPercentage ∧ 0 ≤ zeroRateInput.extraEmiPerYear ∧
    zeroRateInput.interestRate = 0 ∧
    emiDenominator zeroRateInput = 0 ∧ emiNumerator zeroRateInput = 0 := by
  norm_num [emiDenominator, emiNumerator, monthlyRate, totalMonths, zeroRateInput]

/-- C7 amended: for valid inputs with interestRate strictly positive (at
interestRate = 0 the missing zero-rate branch makes every balance NaN — the
defect reported with C1 — so no numeric invariant can hold there), the
claimed invariants hold for both strategies: the loan balance never increases
from one month to the next; once
a track's closed flag is set its balance is exactly 0, the flag stays set, the
balance stays unchanged and no further interest accrues; and the snapshot
published for a month displays exactly the track balance (the `max 0` floor is
the identity because balances never go negative). -/
theorem c7_loan_balance_invariants (input : LoanInput) (m : ℕ)
    (hP : 0 < input.principal) (hr : 0 < input.interestRate) (hn : 1 ≤ input.tenureYears)
    (hsu : 0 ≤ input.stepUpPercentage) (hex : 0 ≤ input.extraEmiPerYear) :
    ((runState input (m + 1)).balanceRegular ≤ (runState input m).balanceRegular ∧
      (runState input (m + 1)).balanceAggressive ≤ (runState input m).balanceAggressive) ∧
    ((runState input m).isRegularClosed = true →
      (runState input m).balanceRegular = 0 ∧
      (runState input (m + 1)).isRegularClosed = true ∧
      (runState input (m + 1)).balanceRegular = (runState input m).balanceRegular ∧
      (runState input (m + 1)).totalInterestRegular = (runState input m).totalInterestRegular) ∧
    ((runState input m).isAggressiveClosed = true →
      (runState input m).balanceAggressive = 0 ∧
      (runState input (m + 1)).isAggressiveClosed = true ∧
      (runState input (m + 1)).balanceAggressive = (runState input m).balanceAggressive ∧
      (runState input (m + 1)).totalInterestAggressive =
        (runState input m).totalInterestAggressive) ∧
    (snapshot (m + 1) (runState input (m + 1))).loanBalanceRegular =
      (runState input (m + 1)).balanceRegular ∧
    (snapshot (m + 1) (runState input (m + 1))).loanBalanceAggressive =
      (runState input (m + 1)).balanceAggressive := by
  have hinv := stateInv_runState input hP hr hn hsu hex m
  have hinv1 := stateInv_runState input hP hr hn hsu hex (m + 1)
  have hrs : runState input (m + 1) = monthStep input (m + 1) (runState input m) := rfl
  have hms := stateInv_monthStep input (m + 1) (runState input m) hP hr hn hsu hex hinv
  refine ⟨⟨?_, ?_⟩, ?_, ?_, ?_, ?_⟩
  · rw [hrs]; exact hms.2.1
  · rw [hrs]; exact hms.2.2
  · intro h
    have hfroz := monthStep_regular_frozen input (m + 1) (runState input m) h
    exact ⟨hinv.2.2.2.2.1 h, by rw [hrs]; exact hfroz.1, by rw [hrs]; exact hfroz.2.1,
      by rw [hrs]; exact hfroz.2.2.1⟩
  · intro h
    have hfroz := monthStep_aggressive_frozen input (m + 1) (runState input m) h
    exact ⟨hinv.2.2.2.2.2 h, by rw [hrs]; exact hfroz.1, by rw [hrs]; exact hfroz.2.1,
      by rw [hrs]; exact hfroz.2.2.1⟩
  · show max 0 (runState input (m + 1)).balanceRegular = _
    exact max_eq_right hinv1.1
  · show max 0 (runState input (m + 1)).balanceAggressive = _
    exact max_eq_right hinv1.2.2.1

/-- Witness for C7 at a concrete input and month. -/
theorem c7_loan_balance_invariants_checked :
    ((runState inpSpeed 1).balanceRegular ≤ (runState inpSpeed 0).balanceRegular ∧
      (runState inpSpeed 1).balanceAggressive ≤ (runState inpSpeed 0).balanceAggressive) ∧
    ((runState inpSpeed 0).isRegularClosed = true →
      (runState inpSpeed 0).balanceRegular = 0 ∧
      (runState inpSpeed 1).isRegularClosed = true ∧
      (runState inpSpeed 1).balanceRegular = (runState inpSpeed 0).balanceRegular ∧
      (runState inpSpeed 1).totalInterestRegular = (runState inpSpeed 0).totalInterestRegular) ∧
    ((runState inpSpeed 0).isAggressiveClosed = true →
      (runState inpSpeed 0).balanceAggressive = 0 ∧
      (runState inpSpeed 1).isAggressiveClosed = true ∧
      (runState inpSpeed 1).balanceAggressive = (runState inpSpeed 0).balanceAggressive ∧
      (runState inpSpeed 1).totalInterestAggressive =
        (runState inpSpeed 0).totalInterestAggressive) ∧
    (snapshot 1 (runState inpSpeed 1)).loanBalanceRegular =
      (runState inpSpeed 1).balanceRegular ∧
    (snapshot 1 (runState inpSpeed 1)).loanBalanceAggressive =
      (runState inpSpeed 1).balanceAggressive :=
  c7_loan_balance_invariants inpSpeed 0 (by norm_num [inpSpeed]) (by norm_num [inpSpeed])
    (by norm_num [inpSpeed]) (by norm_num [inpSpeed]) (by norm_num [inpSpeed])

/-- C8 counterexample: interestRate = 0 is a valid input the claim covers,
but on this concrete rate-0 input (the spec's end-to-end scenario at rate 0)
the installment formula is 0/0, so in the source both strategies' interest
totals are NaN from month 2 on and `aggressiveTotalInterest ≤
regularTotalInterest` fails (NaN satisfies no ordering).  As in C1, the
counterexample pins the division-by-zero degeneracy at an in-scope input. -/
theorem c8_zero_rate_counterexample :
    0 < zeroRateSpeedInput.principal ∧ 1 ≤ zeroRateSpeedInput.tenureYears ∧
    0 ≤ zeroRateSpeedInput.interestRate ∧ 0 ≤ zeroRateSpeedInput.sipReturnRate ∧
    0 ≤ zeroRateSpeedInput.stepUpPercentage ∧ 0 ≤ zeroRateSpeedInput.extraEmiPerYear ∧
    zeroRateSpeedInput.interestRate = 0 ∧
    emiDenominator zeroRateSpeedInput = 0 ∧ emiNumerator zeroRateSpeedInput = 0 := by
  norm_num [emiDenominator, emiNumerator, monthlyRate, totalMonths, zeroRateSpeedInput]

/-- C8 amended: for every valid input with interestRate strictly positive
(interestRate = 0 is the NaN defect of C1), the aggressive strategy pays at
most as much total interest as the regular strategy. -/
theorem c8_aggressive_interest_le (input : LoanInput)
    (hP : 0 < input.principal) (hr : 0 < input.interestRate) (hn : 1 ≤ input.tenureYears)
    (hsu : 0 ≤ input.stepUpPercentage) (hex : 0 ≤ input.extraEmiPerYear) :
    (calculateScenario input).summary.aggressiveTotalInterest ≤
      (calculateScenario input).summary.regularTotalInterest :=
  (compare_runState input hP hr hn hsu hex (totalMonths input)).2

/-- Witness for C8 at a concrete input with surplus capacity. -/
theorem c8_aggressive_interest_le_checked :
    (calculateScenario inpSpeed).summary.aggressiveTotalInterest ≤
      (calculateScenario inpSpeed).summary.regularTotalInterest :=
  c8_aggressive_interest_le inpSpeed (by norm_num [inpSpeed]) (by norm_num [inpSpeed])
    (by norm_num [inpSpeed]) (by norm_num [inpSpeed]) (by norm_num [inpSpeed])

/-- C9 counterexample: the claim covers all valid rates including
interestRate = 0, but on this concrete input satisfying every stated
precondition (tenure 1, no extra installment, no step-up, positive principal,
non-negative rates) the installment formula is 0/0, so in the source both
final wealth values are NaN and the claimed exact equality fails (NaN is not
equal to anything, itself included).  As in C1, the counterexample pins the
division-by-zero degeneracy at an in-scope input. -/
theorem c9_zero_rate_counterexample :
    zeroRateFlatInput.tenureYears = 1 ∧ zeroRateFlatInput.extraEmiPerYear = 0 ∧
    zeroRateFlatInput.stepUpPercentage = 0 ∧ 0 < zeroRateFlatInput.principal ∧
    0 ≤ zeroRateFlatInput.interestRate ∧ 0 ≤ zeroRateFlatInput.sipReturnRate ∧
    zeroRateFlatInput.interestRate = 0 ∧
    emiDenominator zeroRateFlatInput = 0 ∧ emiNumerator zeroRateFlatInput = 0 := by
  norm_num [emiDenominator, emiNumerator, monthlyRate, totalMonths, zeroRateFlatInput]

/-- C9 amended: with a one-year tenure, no extra installments, no step-up and
a strictly positive interest rate (rate 0 is the NaN defect of C1), the two
strategies' budgets both collapse to the fixed installment, neither track ever
has any surplus to invest, both loans amortize to exactly 0 at month 12, and
the two final wealth values are exactly equal. -/
theorem c9_one_year_flat_tie (input : LoanInput)
    (h1 : input.tenureYears = 1) (hex : input.extraEmiPerYear = 0)
    (hsu : input.stepUpPercentage = 0) (hP : 0 < input.principal)
    (hr : 0 < input.interestRate) (hs : 0 ≤ input.sipReturnRate) :
    (calculateScenario input).summary.finalWealthRegular =
      (calculateScenario input).summary.finalWealthAggressive := by
  obtain ⟨t, ht⟩ :=
    flat_trajectory input hP hr (by omega) hsu hex (totalMonths input) (le_refl _)
  have hfr : (calculateScenario input).summary.finalWealthRegular =
      (runState input (totalMonths input)).sipValueRegular -
        max 0 (runState input (totalMonths input)).balanceRegular := rfl
  have hfa : (calculateScenario input).summary.finalWealthAggressive =
      (runState input (totalMonths input)).sipValueAggressive -
        max 0 (runState input (totalMonths input)).balanceAggressive := rfl
  rw [hfr, hfa, ht]

/-- Witness for C9 at a concrete one-year flat input. -/
theorem c9_one_year_flat_tie_checked :
    (calculateScenario inpFlat).summary.finalWealthRegular =
      (calculateScenario inpFlat).summary.finalWealthAggressive :=
  c9_one_year_flat_tie inpFlat rfl rfl rfl (by norm_num [inpFlat]) (by norm_num [inpFlat])
    (by norm_num [inpFlat])

/-- C10: when a track's overpayment clamp never fires within the simulated
months (the final state's closed flag is still false), the summary reports
that track's tenure months as the initialized default tenureYears*12 rather
than any sentinel. -/
theorem c10_default_tenure_months (input : LoanInput) :
    ((runState input (totalMonths input)).isRegularClosed = false →
      (calculateScenario input).summary.regularTenureMonths = totalMonths input) ∧
    ((runState input (totalMonths input)).isAggressiveClosed = false →
      (calculateScenario input).summary.aggressiveTenureMonths = totalMonths input) := by
  constructor
  · intro h
    exact runState_regular_closedMonth input (totalMonths input) h
  · intro h
    exact runState_aggressive_closedMonth input (totalMonths input) h

/-- Witness for C10 at a concrete input whose tracks never close (exact
amortization reaches 0 at the final month without tripping the strict
overpayment check). -/
theorem c10_default_tenure_months_checked :
    (calculateScenario inpFlat).summary.regularTenureMonths = totalMonths inpFlat ∧
    (calculateScenario inpFlat).summary.aggressiveTenureMonths = totalMonths inpFlat := by
  obtain ⟨t, ht⟩ := flat_trajectory inpFlat (by norm_num [inpFlat]) (by norm_num [inpFlat])
    (by norm_num [inpFlat]) rfl rfl (totalMonths inpFlat) (le_refl _)
  have h := c10_default_tenure_months inpFlat
  exact ⟨h.1 (by rw [ht]), h.2 (by rw [ht])⟩
